import Mathlib

/-!
Verification of `backend/app/services` of the Paper_AI_Evaluation repository.

Shallow embedding conventions:
* Python numbers (floats holding small exact mark values) are modelled as `ℚ`.
* Python dicts with a fixed set of possible keys become structures whose fields
  are `Option`-valued (`none` = key absent); dicts with arbitrary string keys
  become association lists `List (String × _)` in insertion order.
* Python truthiness of a string is "non-empty"; truthiness of an `Option` field
  is `isSome` together with non-emptiness where the value is a string.
* Fallible operations return `Except` (an uncaught Python exception is `.error`).
* Effectful inputs (LLM replies, extracted OCR text, timestamps) are passed in
  as explicit oracle arguments; calls to external services are recorded in
  explicit traces.
-/

namespace Aggregator

/-! ## `backend/app/services/aggregator.py` -/

/-- Marks are modelled as exact rationals. -/
abbrev Marks := ℚ

/-- A subdivision entry of a question dict: either itself a dict (with an
optional `marks_awarded` key) or some non-dict JSON value. -/
inductive SubVal where
  | dict (marks_awarded : Option Marks)
  | nondict
deriving DecidableEq

/-- A question dict as read by the aggregator: the optional mark keys and the
`subdivisions` sub-dict. -/
structure QData where
  question_total : Option Marks := none
  total_awarded : Option Marks := none
  marks_awarded : Option Marks := none
  subdivisions : List (String × SubVal) := []
deriving DecidableEq

/-- A value of the `questions` dict: either a question dict or a non-dict value
(the source filters with `isinstance(q_data, dict)`). -/
inductive QVal where
  | dict (q : QData)
  | nondict
deriving DecidableEq

/-- One entry of `SECTION_CONFIG`. -/
structure SectionConfigEntry where
  max_marks : ℚ
  retain_best : Nat
  question_max : ℚ
deriving DecidableEq

/-- `SECTION_CONFIG` (fixed PT-II configuration). -/
def SECTION_CONFIG (s : String) : Option SectionConfigEntry :=
  if s = "A" then some ⟨10, 2, 5⟩
  else if s = "B" then some ⟨20, 2, 10⟩
  else if s = "C" then some ⟨20, 2, 10⟩
  else none

def TOTAL_MAX : ℚ := 50

def PASS_MARKS : ℚ := 25

/-- `get_section_max_marks`: `SECTION_CONFIG.get(section, {}).get("max_marks", 10)`. -/
def get_section_max_marks (s : String) : ℚ :=
  match SECTION_CONFIG s with
  | some c => c.max_marks
  | none => 10

/-- `SECTION_CONFIG.get(section, {}).get("retain_best", 2)` (inline in the source). -/
def get_retain_best (s : String) : Nat :=
  match SECTION_CONFIG s with
  | some c => c.retain_best
  | none => 2

/-- `calculate_question_total`: `question_total`, else `total_awarded`, else
`marks_awarded`, else the sum of `marks_awarded` over dict subdivisions. -/
def calculate_question_total (q : QData) : Marks :=
  match q.question_total with
  | some v => v
  | none =>
    match q.total_awarded with
    | some v => v
    | none =>
      match q.marks_awarded with
      | some v => v
      | none =>
        (q.subdivisions.map (fun p =>
          match p.2 with
          | .dict m => m.getD 0
          | .nondict => 0)).sum

/-- The `question_scores` list built by `apply_answer_any_two_rule`
(lines 90–94): `(q_id, calculate_question_total(q_data))` for dict entries,
in dict (insertion) order. -/
def question_scores (questions : List (String × QVal)) : List (String × Marks) :=
  questions.filterMap (fun p =>
    match p.2 with
    | .dict q => some (p.1, calculate_question_total q)
    | .nondict => none)

/-- Stable insertion step for descending order by marks: an element moves in
front only of strictly-later elements with strictly smaller or equal... more
precisely, `x` is placed before the first `y` with `x.2 ≥ y.2`; since `x`
precedes the tail in the original list this is stable. -/
def insertByMarksDesc (x : String × Marks) : List (String × Marks) → List (String × Marks)
  | [] => [x]
  | y :: ys => if x.2 ≥ y.2 then x :: y :: ys else y :: insertByMarksDesc x ys

/-- Model of `question_scores.sort(key=lambda x: x[1], reverse=True)`:
Python's sort is stable, and a stable descending insertion sort produces the
same list. -/
def sortByMarksDesc : List (String × Marks) → List (String × Marks)
  | [] => []
  | x :: xs => insertByMarksDesc x (sortByMarksDesc xs)

/-- Lines 99–108 of `apply_answer_any_two_rule`: retained ids, discarded ids
and the (pre-cap) section total. -/
def select_best (scores : List (String × Marks)) (retain_count : Nat) :
    List String × List String × Marks :=
  if scores.length ≤ retain_count then
    (scores.map Prod.fst, [], (scores.map Prod.snd).sum)
  else
    ((scores.take retain_count).map Prod.fst,
     (scores.drop retain_count).map Prod.fst,
     ((scores.take retain_count).map Prod.snd).sum)

/-- Python's builtin `min` on two numbers (returns the first argument on
ties); written out so that it evaluates by kernel reduction. -/
def pymin (a b : ℚ) : ℚ := if b < a then b else a

/-- A section evaluation dict as consumed by the aggregator: only its
`questions` key is read (`section_result.get("questions", {})`). -/
structure SectionResult where
  questions : Option (List (String × QVal)) := none
deriving DecidableEq

/-- `apply_answer_any_two_rule`: sort scores descending, keep the best
`retain_best`, cap the subtotal at the section maximum. -/
def apply_answer_any_two_rule (section_result : SectionResult) (s : String) :
    List String × List String × Marks :=
  let questions := section_result.questions.getD []
  let scores := sortByMarksDesc (question_scores questions)
  let out := select_best scores (get_retain_best s)
  (out.1, out.2.1, pymin out.2.2 (get_section_max_marks s))

/-- Round to nearest integer, ties to even (Python's `round` on floats). -/
def roundHalfEven (x : ℚ) : ℤ :=
  let f := Rat.floor x
  let r := x - f
  if r < 1/2 then f
  else if r > 1/2 then f + 1
  else if f % 2 = 0 then f else f + 1

/-- `round(x, 1)`. -/
def round1 (x : ℚ) : ℚ := (roundHalfEven (x * 10) : ℚ) / 10

/-- `calculate_grade`. -/
def calculate_grade (percentage : ℚ) : String :=
  if percentage ≥ 90 then "O"
  else if percentage ≥ 80 then "A+"
  else if percentage ≥ 70 then "A"
  else if percentage ≥ 60 then "B+"
  else if percentage ≥ 55 then "B"
  else if percentage ≥ 50 then "C"
  else if percentage ≥ 45 then "D"
  else "F"

/-- The per-section part of the final result (the `questions` echo and the
textual feedback/audit fields, which no claim concerns, are omitted). -/
structure SectionOut where
  retained_questions : List String
  discarded_questions : List String
  section_total : Marks
  section_max : ℚ
deriving DecidableEq

/-- The aggregated final result of `compute_final_result` (presentation-only
fields `overall_feedback`, `evaluation_summary`, `audit_log` omitted). -/
structure FinalResult where
  student_id : String
  sections_A : SectionOut
  sections_B : SectionOut
  sections_C : SectionOut
  grand_total : Marks
  max_possible : ℚ
  percentage : ℚ
  grade : String
  result : String
deriving DecidableEq

/-- The `section_results` argument of `compute_final_result`: the keys
`A`, `B`, `C` that the loop inspects (`if section not in section_results`). -/
structure SectionResults where
  A : Option SectionResult := none
  B : Option SectionResult := none
  C : Option SectionResult := none
deriving DecidableEq

/-- One iteration of the section loop of `compute_final_result`: absent
section → empty result; present → answer-any-two rule. -/
def section_out (sr : Option SectionResult) (s : String) : SectionOut :=
  match sr with
  | none => ⟨[], [], 0, get_section_max_marks s⟩
  | some r =>
    let out := apply_answer_any_two_rule r s
    ⟨out.1, out.2.1, out.2.2, get_section_max_marks s⟩

/-- `compute_final_result` (lines 116–213): per-section aggregation, grand
total, percentage, grade and PASS/FAIL verdict. -/
def compute_final_result (section_results : SectionResults)
    (student_id : String := "UNKNOWN") : FinalResult :=
  let sA := section_out section_results.A "A"
  let sB := section_out section_results.B "B"
  let sC := section_out section_results.C "C"
  let grand := sA.section_total + sB.section_total + sC.section_total
  let pct := if TOTAL_MAX > 0 then round1 (grand / TOTAL_MAX * 100) else 0
  { student_id := student_id
    sections_A := sA
    sections_B := sB
    sections_C := sC
    grand_total := grand
    max_possible := TOTAL_MAX
    percentage := pct
    grade := calculate_grade pct
    result := if grand ≥ PASS_MARKS then "PASS" else "FAIL" }

end Aggregator

/-- Python truthiness of `data.get(key)` for a string-valued key:
present and non-empty. -/
def truthyStr : Option String → Bool
  | none => false
  | some s => !s.isEmpty

/-- Python exceptions that can escape a checkpoint read. -/
inductive PyError where
  | jsonDecodeError
  | ioError
  | keyError
deriving DecidableEq

namespace LlmEvaluator

/-! ## `backend/app/services/llm_evaluator.py` — holistic result model -/

/-- One section of the holistic evaluation JSON (`section_wise_evaluation`).
Question payloads reuse the dict model of the aggregator so that the same
questions can be fed to `compute_final_result`; `validate_and_fix_result`
never inspects them. -/
structure SectionEval where
  questions : List (String × Aggregator.QVal) := []
  retained : List String := []
  section_total : Option ℚ := none
deriving DecidableEq

/-- The `section_wise_evaluation` dict: the three keys the validator checks. -/
structure SectionWise where
  A : Option SectionEval := none
  B : Option SectionEval := none
  C : Option SectionEval := none
deriving DecidableEq

/-- The `final_summary` dict; the record defaults are exactly the
`default_result` values of `validate_and_fix_result`. -/
structure FinalSummary where
  total_marks : ℚ := 0
  max_marks : ℚ := 50
  result : String := "FAIL"
  examiner_comment : String := "Evaluation incomplete"
deriving DecidableEq

/-- A raw holistic evaluation result (top-level keys may be absent). -/
structure EvalResult where
  section_wise_evaluation : Option SectionWise := none
  final_summary : Option FinalSummary := none
deriving DecidableEq

/-- The default section inserted by `validate_and_fix_result` for a missing
section: `{"questions": {}, "retained": [], "section_total": 0}`. -/
def default_section : SectionEval := ⟨[], [], some 0⟩

/-- The per-section step of `validate_and_fix_result`: insert the default if
the section is missing, then clamp `section_total` to the section maximum
(10 for A, 20 for B and C). -/
def fix_section (s? : Option SectionEval) (max_section : ℚ) : SectionEval :=
  let sd := s?.getD default_section
  if sd.section_total.getD 0 > max_section then
    { sd with section_total := some max_section }
  else sd

/-- The result of `validate_and_fix_result`: all fields guaranteed present. -/
structure ValidatedResult where
  A : SectionEval
  B : SectionEval
  C : SectionEval
  final_summary : FinalSummary
deriving DecidableEq

/-- `validate_and_fix_result` (lines 448–501): fill missing keys with
defaults, clamp the per-section totals, recompute `total_marks` as
`min(A + B + C, 50)` and the PASS/FAIL verdict against 25. -/
def validate_and_fix_result (r : EvalResult) : ValidatedResult :=
  let sw := r.section_wise_evaluation.getD
    ⟨some default_section, some default_section, some default_section⟩
  let a := fix_section sw.A 10
  let b := fix_section sw.B 20
  let c := fix_section sw.C 20
  let computed_total :=
    a.section_total.getD 0 + b.section_total.getD 0 + c.section_total.getD 0
  let total_marks := Aggregator.pymin computed_total 50
  let fs := r.final_summary.getD {}
  { A := a
    B := b
    C := c
    final_summary :=
      { fs with
        total_marks := total_marks
        max_marks := 50
        result := if total_marks ≥ 25 then "PASS" else "FAIL" } }

end LlmEvaluator

namespace Checkpoint

/-! ## `backend/app/services/checkpoint_service.py` -/

/-- The `ocr_texts` dict of a job checkpoint (keys may be absent). -/
structure OcrTexts where
  question_paper : Option String := none
  answer_key : Option String := none
  student_answers : Option String := none
deriving DecidableEq

/-- A per-job checkpoint record. Fields not touched by any claim
(`job_id`, `structure`, `section_results`, timestamps) are omitted;
`ocr_texts = none` models the key being absent. -/
structure CheckpointData where
  stage : String := "STARTED"
  completed_sections : List String := []
  ocr_texts : Option OcrTexts := none
  final_result : Option LlmEvaluator.ValidatedResult := none
deriving DecidableEq

/-- The state of the per-job checkpoint file on disk. -/
inductive DiskState where
  | absent
  | malformed
  | unreadable
  | record (d : CheckpointData)
deriving DecidableEq

/-- `CheckpointService.load` (lines 26–31): returns `None` only when the file
does not exist; the `json.load` of an existing file is NOT guarded, so a
malformed or unreadable file raises. -/
def load : DiskState → Except PyError (Option CheckpointData)
  | .absent => .ok none
  | .malformed => .error .jsonDecodeError
  | .unreadable => .error .ioError
  | .record d => .ok (some d)

/-- `init_checkpoint`'s fresh record (then saved). -/
def init_checkpoint : CheckpointData :=
  { stage := "STARTED", completed_sections := [], ocr_texts := some ⟨none, none, none⟩ }

/-- `get_or_create`: the loaded checkpoint, or a fresh one. -/
def get_or_create (st : DiskState) : Except PyError CheckpointData := do
  match ← load st with
  | some cp => pure cp
  | none => pure init_checkpoint

/-- `save_ocr_complete`: set stage `OCR_COMPLETE` and all three OCR texts,
then save; returns the new disk state. -/
def save_ocr_complete (st : DiskState) (question_text answer_key_text student_text : String) :
    Except PyError DiskState := do
  let cp ← get_or_create st
  pure (.record { cp with
    stage := "OCR_COMPLETE"
    ocr_texts := some ⟨some question_text, some answer_key_text, some student_text⟩ })

/-- `save_final_result`: set stage `AGGREGATION_COMPLETE` and the
`final_result` key, then save. -/
def save_final_result (st : DiskState) (final : LlmEvaluator.ValidatedResult) :
    Except PyError DiskState := do
  let cp ← get_or_create st
  pure (.record { cp with stage := "AGGREGATION_COMPLETE", final_result := some final })

/-- `get_ocr_texts` (lines 116–121): the `ocr_texts` dict if the checkpoint
loads and has the key. -/
def get_ocr_texts (st : DiskState) : Except PyError (Option OcrTexts) := do
  match ← load st with
  | some cp => pure cp.ocr_texts
  | none => pure none

end Checkpoint

namespace ExamCheckpoint

/-! ## `backend/app/services/exam_checkpoint_service.py` -/

/-- The on-disk exam checkpoint record (timestamps modelled as abstract
`Nat` stamps; the `exam_id` field is carried by the file name). -/
structure ExamData where
  question_paper_text : Option String := none
  answer_key_text : Option String := none
  ocr_completed_at : Option Nat := none
  updated_at : Option Nat := none
deriving DecidableEq

/-- The state of the exam checkpoint file on disk. -/
inductive DiskState where
  | absent
  | malformed
  | unreadable
  | record (d : ExamData)
deriving DecidableEq

/-- `ExamCheckpointService.exists`. -/
def fileExists : DiskState → Bool
  | .absent => false
  | _ => true

/-- `ExamCheckpointService.load` (lines 70–78): `json.load` guarded by
`except (json.JSONDecodeError, IOError): return None`. -/
def load : DiskState → Option ExamData
  | .absent => none
  | .malformed => none
  | .unreadable => none
  | .record d => some d

/-- `has_complete_ocr`: file exists, loads, and both texts are truthy. -/
def has_complete_ocr (st : DiskState) : Bool :=
  if !fileExists st then false
  else
    match load st with
    | none => false
    | some d => truthyStr d.question_paper_text && truthyStr d.answer_key_text

/-- `save`: stamp `updated_at` and write the record. -/
def save (data : ExamData) (now : Nat) : DiskState :=
  .record { data with updated_at := some now }

/-- `save_ocr_results` (lines 87–96): load the existing record (or start from
an empty dict), unconditionally set both texts and the completion stamp, and
save. -/
def save_ocr_results (st : DiskState) (question_text answer_key_text : String)
    (now : Nat) : DiskState :=
  let data := (load st).getD {}
  save { data with
    question_paper_text := some question_text
    answer_key_text := some answer_key_text
    ocr_completed_at := some now } now

/-- `get_ocr_texts` (lines 108–116): both texts when present and truthy. -/
def get_ocr_texts (st : DiskState) : Option (String × String) :=
  match load st with
  | none => none
  | some d =>
    match d.question_paper_text, d.answer_key_text with
    | some qp, some ak => if !qp.isEmpty && !ak.isEmpty then some (qp, ak) else none
    | _, _ => none

end ExamCheckpoint

namespace JobStore

/-! ## `backend/app/services/job_store.py` -/

/-- A job record (timestamps omitted). -/
structure JobRecord where
  status : String := "processing"
  error : Option String := none
  result : Option LlmEvaluator.ValidatedResult := none
deriving DecidableEq

/-- The record created by `create_job`. -/
def create_record : JobRecord := {}

/-- The field updates of `update_job` (lines 33–38): status always; `error`
and `result` only when the supplied value is truthy (the `result` dicts
passed by callers are never empty, so `isSome` models `if result:`). -/
def update_record (r : JobRecord) (status : String) (error : Option String)
    (result : Option LlmEvaluator.ValidatedResult) : JobRecord :=
  { r with
    status := status
    error := if truthyStr error then error else r.error
    result := if result.isSome then result else r.result }

/-- The in-memory `_jobs` dict, as an association list in insertion order. -/
abbrev Jobs := List (String × JobRecord)

/-- Dict access `self._jobs[job_id]` / `job_id in self._jobs`. -/
def find_job : Jobs → String → Option JobRecord
  | [], _ => none
  | (k, v) :: tl, id => if k = id then some v else find_job tl id

/-- In-place mutation of the entry with the given id. -/
def touch (id : String) (g : JobRecord → JobRecord) :
    String × JobRecord → String × JobRecord
  | (k, v) => if k = id then (k, g v) else (k, v)

/-- `update_job` (lines 29–38): update the record in place if the id is
present, else do nothing. -/
def update_job (jobs : Jobs) (job_id : String) (status : String)
    (error : Option String) (result : Option LlmEvaluator.ValidatedResult) : Jobs :=
  if (find_job jobs job_id).isSome then
    jobs.map (touch job_id (fun r => update_record r status error result))
  else jobs

/-- `get_job`. -/
def get_job (jobs : Jobs) (job_id : String) : Option JobRecord :=
  find_job jobs job_id

end JobStore

/-- Rendering of a Python exception as the `str(e)` recorded by the
orchestrator's `except` handler. -/
def PyError.msg : PyError → String
  | .jsonDecodeError => "JSONDecodeError"
  | .ioError => "IOError"
  | .keyError => "KeyError"

namespace LlmEvaluator

/-! ## `llm_evaluator.py` — `call_groq_api` (the Resilient Invoker) -/

/-- One chat message of the request. -/
structure Message where
  role : String
  content : String
deriving DecidableEq

/-- The JSON body POSTed to the chat-completions endpoint: the `payload`
built once at lines 187–192 (`temperature` is the constant 0.1). -/
structure GroqPayload where
  model : String
  messages : List Message
  temperature : ℚ
  max_tokens : Nat
deriving DecidableEq

/-- The outcome of one HTTP POST: a response with a status code (for 200 the
`body` is the extracted `choices[0].message.content`, otherwise the error
text), a timeout, or a connection error. -/
inductive HttpOutcome where
  | status (code : Nat) (body : String)
  | timeout
  | connectError
deriving DecidableEq

/-- An `ocr_llm` / `llm` config dict (fields read by `call_groq_api`;
absent keys are `none` and the source's `.get` defaults apply). -/
structure LlmConfig where
  base_url : Option String := none
  api_key : Option String := none
  model : Option String := none
  timeout_seconds : Option Nat := none
  max_retries : Option Nat := none
  retry_backoff_seconds : Option Nat := none
deriving DecidableEq

/-- The top-level config dict (the keys `call_groq_api` reads). -/
structure Config where
  ocr_llm : Option LlmConfig := none
  llm : Option LlmConfig := none
deriving DecidableEq

/-- The body of one iteration of the retry loop of `call_groq_api`
(lines 201–243): on 200 return the content, on 429/413/503 wait and fall
through to the remaining attempts (`rest`), on any other status raise; a
timeout or connection error also falls through. The POST of this attempt is
prepended to the trace. -/
def groq_handle (payload : GroqPayload)
    (rest : Except String String × List GroqPayload) :
    HttpOutcome → Except String String × List GroqPayload
  | .status code body =>
    if code = 200 then (.ok body, [payload])
    else if code = 429 ∨ code = 413 ∨ code = 503 then (rest.1, payload :: rest.2)
    else (.error ("Groq API error " ++ toString code ++ ": " ++ body), [payload])
  | .timeout => (rest.1, payload :: rest.2)
  | .connectError => (rest.1, payload :: rest.2)

/-- The retry loop of `call_groq_api` (lines 200–245), with the network
modelled as a function from the attempt index to its outcome. Produces the
returned content (or the raised exception) and the trace of payloads POSTed,
one per attempt actually made. Delays between attempts are real-time and not
modelled; they do not affect the result or the trace. -/
def groq_retry_loop (server : Nat → HttpOutcome) (payload : GroqPayload) :
    Nat → Nat → Except String String × List GroqPayload
  | _, 0 => (.error "Max retries exceeded", [])
  | attempt, fuel + 1 =>
    groq_handle payload (groq_retry_loop server payload (attempt + 1) fuel) (server attempt)

/-- `call_groq_api` (lines 161–245): resolve the config, build the payload
once, then run the retry loop. -/
def call_groq_api (messages : List Message) (config : Config)
    (max_tokens : Nat) (server : Nat → HttpOutcome) :
    Except String String × List GroqPayload :=
  let llm_config := config.ocr_llm.getD (config.llm.getD {})
  let model := llm_config.model.getD "meta-llama/llama-4-maverick-17b-128e-instruct"
  let max_retries := llm_config.max_retries.getD 15
  let api_key := llm_config.api_key.getD ""
  if api_key.isEmpty then (.error "GROQ_API_KEY not set", [])
  else
    groq_retry_loop server ⟨model, messages, 1/10, max_tokens⟩ 0 max_retries

/-! ## `llm_evaluator.py` — `evaluate_exam` (the pipeline orchestrator) -/

/-- The three documents OCR-extracted by `extract_text_with_llm`. -/
inductive Doc where
  | question_paper
  | answer_key
  | student_sheet
deriving DecidableEq

/-- Oracles for the effectful steps of `evaluate_exam`: the text that
`extract_text_with_llm` would return for each document, and the outcome of
`holistic_evaluate` (the parsed reply of the reasoning call, or the
exception it raises). -/
structure Oracles where
  extract : Doc → String
  holistic : Except String EvalResult

/-- The mutable state touched by `evaluate_exam`: the two checkpoint files,
the job store, and the `outputs/{job_id}_result.json` file. -/
structure PipelineState where
  job_checkpoint : Checkpoint.DiskState
  exam_checkpoint : ExamCheckpoint.DiskState
  jobs : JobStore.Jobs
  saved_output : Option ValidatedResult

/-- The result of a run of `evaluate_exam`: the returned value or raised
error, the final state, and the trace of `extract_text_with_llm` calls. -/
structure PipelineOutcome where
  result : Except String ValidatedResult
  state : PipelineState
  extraction_calls : List Doc

/-- Python truthiness of the `ocr_texts` dict (non-empty). -/
def ocrTruthy (t : Checkpoint.OcrTexts) : Bool :=
  t.question_paper.isSome || t.answer_key.isSome || t.student_answers.isSome

/-- The shared tail of stage 1 when no full job checkpoint is available
(lines 592–623): mark the job `processing`, use the exam-level cache for QP
and AK or extract and cache them, always extract the student answers, then
write the per-job OCR checkpoint. -/
def stage1_fresh (job_id : String) (st : PipelineState) (extract : Doc → String)
    (now : Nat) : Except String (String × String × String) × PipelineState × List Doc :=
  let jobs₁ := JobStore.update_job st.jobs job_id "processing" none none
  match ExamCheckpoint.get_ocr_texts st.exam_checkpoint with
  | some (qp, ak) =>
    let stx := extract .student_sheet
    match Checkpoint.save_ocr_complete st.job_checkpoint qp ak stx with
    | .ok cp' =>
      (.ok (qp, ak, stx), ⟨cp', st.exam_checkpoint, jobs₁, st.saved_output⟩, [.student_sheet])
    | .error e =>
      (.error e.msg, ⟨st.job_checkpoint, st.exam_checkpoint, jobs₁, st.saved_output⟩,
       [.student_sheet])
  | none =>
    let qp := extract .question_paper
    let ak := extract .answer_key
    let exam' := ExamCheckpoint.save_ocr_results st.exam_checkpoint qp ak now
    let stx := extract .student_sheet
    match Checkpoint.save_ocr_complete st.job_checkpoint qp ak stx with
    | .ok cp' =>
      (.ok (qp, ak, stx), ⟨cp', exam', jobs₁, st.saved_output⟩,
       [.question_paper, .answer_key, .student_sheet])
    | .error e =>
      (.error e.msg, ⟨st.job_checkpoint, exam', jobs₁, st.saved_output⟩,
       [.question_paper, .answer_key, .student_sheet])

/-- Stage 1 of `evaluate_exam` (lines 581–623): if the per-job checkpoint
already has an `ocr_texts` dict whose `student_answers` entry is truthy,
resume from it (reading the three keys; a missing key raises `KeyError`);
otherwise run the fresh-extraction path. -/
def stage1 (job_id : String) (st : PipelineState) (extract : Doc → String)
    (now : Nat) : Except String (String × String × String) × PipelineState × List Doc :=
  match Checkpoint.get_ocr_texts st.job_checkpoint with
  | .error e => (.error e.msg, st, [])
  | .ok jot? =>
    match jot? with
    | some t =>
      if ocrTruthy t && truthyStr t.student_answers then
        match t.question_paper, t.answer_key, t.student_answers with
        | some qp, some ak, some stx => (.ok (qp, ak, stx), st, [])
        | _, _, _ => (.error PyError.keyError.msg, st, [])
      else stage1_fresh job_id st extract now
    | none => stage1_fresh job_id st extract now

/-- Stage 3 of `evaluate_exam` (lines 637–661): validate and fix the
holistic result, checkpoint it, write it to the outputs file, and mark the
job `completed` with the result. -/
def stage3 (job_id : String) (evaluation_result : EvalResult) (st : PipelineState) :
    Except String ValidatedResult × PipelineState :=
  let final := validate_and_fix_result evaluation_result
  match Checkpoint.save_final_result st.job_checkpoint final with
  | .error e => (.error e.msg, st)
  | .ok cp' =>
    let jobs' := JobStore.update_job st.jobs job_id "completed" none (some final)
    (.ok final, ⟨cp', st.exam_checkpoint, jobs', some final⟩)

/-- The `except` handler of `evaluate_exam` (lines 663–668). -/
def mark_failed (job_id : String) (e : String) (st : PipelineState) : PipelineState :=
  { st with jobs := JobStore.update_job st.jobs job_id "failed" (some e) none }

/-- `evaluate_exam` (lines 552–668): stage 1 (OCR, with both checkpoints),
stage 2 (the holistic reasoning call, as an oracle), stage 3 (validation and
persistence); any raised error marks the job `failed` and is re-raised. -/
def evaluate_exam (job_id : String) (st : PipelineState) (ora : Oracles)
    (now : Nat) : PipelineOutcome :=
  let s1 := stage1 job_id st ora.extract now
  match s1.1 with
  | .error e => ⟨.error e, mark_failed job_id e s1.2.1, s1.2.2⟩
  | .ok _ =>
    match ora.holistic with
    | .error e => ⟨.error e, mark_failed job_id e s1.2.1, s1.2.2⟩
    | .ok er =>
      let s3 := stage3 job_id er s1.2.1
      match s3.1 with
      | .error e => ⟨.error e, mark_failed job_id e s3.2, s1.2.2⟩
      | .ok final => ⟨.ok final, s3.2, s1.2.2⟩

end LlmEvaluator

namespace Sample

/-! Concrete fixtures used to exercise the pipeline. -/

/-- A holistic evaluation result whose Section A claims `section_total` 12
while its question marks are 5, 4 and 3. -/
def inflated_eval : LlmEvaluator.EvalResult :=
  ⟨some ⟨some ⟨[("Q1", .dict ⟨none, none, some 5, []⟩),
               ("Q2", .dict ⟨none, none, some 4, []⟩),
               ("Q3", .dict ⟨none, none, some 3, []⟩)], [], some 12⟩,
         some ⟨[], [], some 0⟩, some ⟨[], [], some 0⟩⟩,
   none⟩

/-- The same per-section scores as `inflated_eval`, as the Aggregation
Engine's input format. -/
def inflated_sections : Aggregator.SectionResults :=
  ⟨some ⟨some [("Q1", .dict ⟨none, none, some 5, []⟩),
               ("Q2", .dict ⟨none, none, some 4, []⟩),
               ("Q3", .dict ⟨none, none, some 3, []⟩)]⟩,
   some ⟨some []⟩, some ⟨some []⟩⟩

/-- A fresh pipeline state: no checkpoints on disk, one job in the store. -/
def fresh_state : LlmEvaluator.PipelineState :=
  ⟨.absent, .absent, [("job-1", JobStore.create_record)], none⟩

/-- Oracles: constant OCR text, successful reasoning call returning
`inflated_eval`. -/
def ora : LlmEvaluator.Oracles := ⟨fun _ => "TEXT", .ok inflated_eval⟩

/-- The job checkpoint on disk after stage 3 of this run. -/
def cp_after : Checkpoint.DiskState :=
  .record { stage := "AGGREGATION_COMPLETE", completed_sections := [],
            ocr_texts := some ⟨some "TEXT", some "TEXT", some "TEXT"⟩,
            final_result := some (LlmEvaluator.validate_and_fix_result inflated_eval) }

end Sample

namespace ExtractJson

/-! ## `llm_evaluator.py` — `extract_json_from_response` (the Response
Extractor), lines 62–138. Texts are modelled as `List Char`. -/

/-- The whitespace class of `json.loads` (space, tab, LF, CR). -/
def isJsonSpace (c : Char) : Bool :=
  c = ' ' || c = '\t' || c = '\n' || c = '\r'

/-- The whitespace class of Python's `str.strip` and of `\s` in `re`
(additionally vertical tab and form feed). -/
def isPySpace (c : Char) : Bool :=
  isJsonSpace c || c = Char.ofNat 11 || c = Char.ofNat 12

/-- `str.strip()`. -/
def pyStrip (l : List Char) : List Char :=
  ((l.dropWhile isPySpace).reverse.dropWhile isPySpace).reverse

/-- JSON values (model of what `json.loads` returns; numbers restricted to
integers, which is the fragment these claims need). -/
inductive JVal where
  | null
  | bool (b : Bool)
  | num (n : Int)
  | str (s : List Char)
  | arr (xs : List JVal)
  | obj (fields : List (List Char × JVal))

def skipWs (l : List Char) : List Char := l.dropWhile isJsonSpace

/-- A double-quote-terminated string body (escape sequences are outside the
modelled fragment). -/
def parseStringBody : List Char → Option (List Char × List Char)
  | [] => none
  | '"' :: rest => some ([], rest)
  | c :: rest => (parseStringBody rest).map (fun p => (c :: p.1, p.2))

/-- An optionally-signed integer literal. -/
def parseNum (l : List Char) : Option (Int × List Char) :=
  match l with
  | '-' :: rest =>
    let digits := rest.takeWhile Char.isDigit
    if digits.isEmpty then none
    else some (-(digits.foldl (fun n c => n * 10 + (c.toNat - 48)) 0 : Int),
               rest.drop digits.length)
  | _ =>
    let digits := l.takeWhile Char.isDigit
    if digits.isEmpty then none
    else some ((digits.foldl (fun n c => n * 10 + (c.toNat - 48)) 0 : Int),
               l.drop digits.length)

mutual

/-- Strict recursive-descent JSON value parser (model of `json.loads` on the
integer fragment); in particular a trailing comma before a closing brace or
bracket is a parse error, exactly as in `json.loads`. -/
def parseVal : Nat → List Char → Option (JVal × List Char)
  | 0, _ => none
  | fuel + 1, l =>
    match skipWs l with
    | 'n' :: 'u' :: 'l' :: 'l' :: rest => some (.null, rest)
    | 't' :: 'r' :: 'u' :: 'e' :: rest => some (.bool true, rest)
    | 'f' :: 'a' :: 'l' :: 's' :: 'e' :: rest => some (.bool false, rest)
    | '"' :: rest => (parseStringBody rest).map (fun p => (.str p.1, p.2))
    | '[' :: rest =>
      (match skipWs rest with
       | ']' :: r2 => some (.arr [], r2)
       | r1 => (parseArrItems fuel r1).map (fun p => (.arr p.1, p.2)))
    | '\x7b' :: rest =>
      (match skipWs rest with
       | '\x7d' :: r2 => some (.obj [], r2)
       | r1 => (parseObjItems fuel r1).map (fun p => (.obj p.1, p.2)))
    | l' => (parseNum l').map (fun p => (.num p.1, p.2))

/-- One or more comma-separated array items followed by `]`. -/
def parseArrItems : Nat → List Char → Option (List JVal × List Char)
  | 0, _ => none
  | fuel + 1, l =>
    match parseVal fuel l with
    | none => none
    | some (v, rest) =>
      match skipWs rest with
      | ',' :: r2 => (parseArrItems fuel r2).map (fun p => (v :: p.1, p.2))
      | ']' :: r2 => some ([v], r2)
      | _ => none

/-- One or more comma-separated `"key": value` pairs followed by the closing
brace. -/
def parseObjItems : Nat → List Char → Option (List (List Char × JVal) × List Char)
  | 0, _ => none
  | fuel + 1, l =>
    match l with
    | '"' :: rest =>
      match parseStringBody rest with
      | none => none
      | some (key, r1) =>
        match skipWs r1 with
        | ':' :: r2 =>
          (match parseVal fuel r2 with
           | none => none
           | some (v, r3) =>
             match skipWs r3 with
             | ',' :: r4 => (parseObjItems fuel (skipWs r4)).map
                 (fun p => ((key, v) :: p.1, p.2))
             | '\x7d' :: r4 => some ([(key, v)], r4)
             | _ => none)
        | _ => none
    | _ => none

end

/-- `json.loads`: a complete value with nothing but whitespace around it. -/
def jsonParse (l : List Char) : Option JVal :=
  match parseVal (l.length + 1) l with
  | some (v, rest) => if (skipWs rest).isEmpty then some v else none
  | none => none

/-- One global pass of `re.sub(r',\s*X', 'X', s)` for a closing character
`X`: left-to-right, non-overlapping, resuming after each replacement. -/
def stripCommaPass (target : Char) : Nat → List Char → List Char
  | 0, l => l
  | _ + 1, [] => []
  | fuel + 1, ',' :: rest =>
    (match rest.dropWhile isPySpace with
     | c :: r3 =>
       if c = target then target :: stripCommaPass target fuel r3
       else ',' :: stripCommaPass target fuel rest
     | [] => ',' :: stripCommaPass target fuel rest)
  | fuel + 1, c :: rest => c :: stripCommaPass target fuel rest

/-- Lines 113–115 / 130–132: strip trailing commas before closing braces,
then before closing brackets. -/
def strip_trailing_commas (l : List Char) : List Char :=
  let l1 := stripCommaPass '\x7d' (l.length + 1) l
  stripCommaPass ']' (l1.length + 1) l1

/-- List-prefix test. -/
def isPrefixList : List Char → List Char → Bool
  | [], _ => true
  | _ :: _, [] => false
  | p :: ps, c :: cs => p = c && isPrefixList ps cs

/-- Index of the first occurrence of `pat`. -/
def findSub (pat : List Char) : List Char → Option Nat
  | [] => if pat.isEmpty then some 0 else none
  | c :: cs =>
    if isPrefixList pat (c :: cs) then some 0
    else (findSub pat cs).map (· + 1)

/-- The two fence delimiters of the code-block regexes. -/
def fenceJson : List Char := "```json".data

def fencePlain : List Char := "```".data

/-- `re.findall` for the fenced-block patterns: each match captures the span
between the opening delimiter and the next closing fence, and the search
resumes after the closing fence (the `\s*` trimming of the captures is
subsumed by the `.strip()` the caller applies). -/
def findAllBlocks (opener : List Char) : Nat → List Char → List (List Char)
  | 0, _ => []
  | fuel + 1, l =>
    match findSub opener l with
    | none => []
    | some i =>
      let after := l.drop (i + opener.length)
      match findSub fencePlain after with
      | none => []
      | some j => after.take j :: findAllBlocks opener fuel (after.drop (j + 3))

/-- Lines 79–87: for each captured block, strip it, and if it starts with an
opening brace try to parse it (no comma-stripping at this stage). -/
def tryBlocks : List (List Char) → Option JVal
  | [] => none
  | b :: bs =>
    let cleaned := pyStrip b
    if cleaned.head? = some '\x7b' then
      match jsonParse cleaned with
      | some v => some v
      | none => tryBlocks bs
    else tryBlocks bs

/-- The positions of a character, in order. -/
def charPositions (c : Char) : List Char → List Nat
  | [] => []
  | x :: xs =>
    if x = c then 0 :: (charPositions c xs).map (· + 1)
    else (charPositions c xs).map (· + 1)

/-- The depth update of the inner loop of lines 94–104. -/
def scanStep (d : Int) (c : Char) : Int :=
  if c = '\x7b' then d + 1 else if c = '\x7d' then d - 1 else d

/-- The inner loop of lines 94–104: starting depth `d`, the relative index at
which the running brace depth first returns to zero on a closing brace. -/
def scanEnd : Int → List Char → Option Nat
  | _, [] => none
  | d, c :: cs =>
    if c = '\x7d' && scanStep d c = 0 then some 0
    else (scanEnd (scanStep d c) cs).map (· + 1)

/-- Try to parse a candidate span; on failure strip trailing commas and retry
(lines 108–119 and 126–136). -/
def try_parse_with_commas (cand : List Char) : Option JVal :=
  match jsonParse cand with
  | some v => some v
  | none => jsonParse (strip_trailing_commas cand)

/-- Lines 89–119: walk the opening-brace positions in order; for each, find
the balanced span and try to parse it (with the comma-stripping retry),
moving on to the next position on failure. -/
def braceScan (text : List Char) : List Nat → Option JVal
  | [] => none
  | start :: rest =>
    let tail := text.drop start
    match scanEnd 0 tail with
    | some rel =>
      if 0 < rel then
        match try_parse_with_commas (tail.take (rel + 1)) with
        | some v => some v
        | none => braceScan text rest
      else braceScan text rest
    | none => braceScan text rest

/-- Lines 121–136: the last resort, from the first opening brace to the last
closing brace. -/
def lastResort (text : List Char) : Option JVal :=
  match findSub ['\x7b'] text with
  | none => none
  | some s =>
    match findSub ['\x7d'] text.reverse with
    | none => none
    | some ri =>
      let e := text.length - 1 - ri
      if s < e then try_parse_with_commas ((text.drop s).take (e - s + 1))
      else none

/-- `extract_json_from_response` (lines 62–138): the ordered strategies —
direct parse; fenced ```json blocks; generic fenced blocks; balanced-brace
scan with trailing-comma stripping; first-to-last braces; else raise
`ValueError`. -/
def extract_json_from_response (text : List Char) : Except Unit JVal :=
  match jsonParse text with
  | some v => .ok v
  | none =>
    match tryBlocks (findAllBlocks fenceJson (text.length + 1) text) with
    | some v => .ok v
    | none =>
      match tryBlocks (findAllBlocks fencePlain (text.length + 1) text) with
      | some v => .ok v
      | none =>
        match braceScan text (charPositions '\x7b' text) with
        | some v => .ok v
        | none =>
          match lastResort text with
          | some v => .ok v
          | none => .error ()

end ExtractJson

/-! ## Theorems -/

namespace Aggregator

theorem pymin_le_right (a b : ℚ) : pymin a b ≤ b := by
  unfold pymin
  split
  · exact le_refl b
  · exact le_of_not_lt (by assumption)

theorem insertByMarksDesc_perm (x : String × Marks) (l : List (String × Marks)) :
    (insertByMarksDesc x l).Perm (x :: l) := by
  induction l with
  | nil => exact List.Perm.refl _
  | cons y ys ih =>
    unfold insertByMarksDesc
    split
    · exact List.Perm.refl _
    · exact (ih.cons y).trans (List.Perm.swap x y ys)

theorem sortByMarksDesc_perm (l : List (String × Marks)) :
    (sortByMarksDesc l).Perm l := by
  induction l with
  | nil => exact List.Perm.refl _
  | cons x xs ih =>
    exact (insertByMarksDesc_perm x (sortByMarksDesc xs)).trans (ih.cons x)

theorem apply_rule_le_max (sr : SectionResult) (s : String) :
    (apply_answer_any_two_rule sr s).2.2 ≤ get_section_max_marks s :=
  pymin_le_right _ _

end Aggregator

/-- C6: for every section result, the section subtotal computed by
`apply_answer_any_two_rule` is at most the section's cap: 10 for Section A,
20 for Section B, 20 for Section C. -/
theorem c6_section_subtotal_le_cap (sr : Aggregator.SectionResult) :
    (Aggregator.apply_answer_any_two_rule sr "A").2.2 ≤ 10 ∧
    (Aggregator.apply_answer_any_two_rule sr "B").2.2 ≤ 20 ∧
    (Aggregator.apply_answer_any_two_rule sr "C").2.2 ≤ 20 :=
  ⟨Aggregator.apply_rule_le_max sr "A",
   Aggregator.apply_rule_le_max sr "B",
   Aggregator.apply_rule_le_max sr "C"⟩

/-- C7: if the number of answered (dict-valued) questions of a section is at
most the section's retain-count, then `apply_answer_any_two_rule` retains all
of them (as a permutation of the answered ids), discards none, and the
pre-cap subtotal (`select_best`, lines 99–108) is the sum of all their
awarded marks. -/
theorem c7_few_answers_keep_all (sr : Aggregator.SectionResult) (s : String)
    (h : (Aggregator.question_scores (sr.questions.getD [])).length ≤
          Aggregator.get_retain_best s) :
    (Aggregator.apply_answer_any_two_rule sr s).1.Perm
      ((Aggregator.question_scores (sr.questions.getD [])).map Prod.fst) ∧
    (Aggregator.apply_answer_any_two_rule sr s).2.1 = [] ∧
    (Aggregator.select_best
        (Aggregator.sortByMarksDesc (Aggregator.question_scores (sr.questions.getD [])))
        (Aggregator.get_retain_best s)).2.2 =
      ((Aggregator.question_scores (sr.questions.getD [])).map Prod.snd).sum := by
  have hperm := Aggregator.sortByMarksDesc_perm (Aggregator.question_scores (sr.questions.getD []))
  have hlen : (Aggregator.sortByMarksDesc
      (Aggregator.question_scores (sr.questions.getD []))).length ≤
      Aggregator.get_retain_best s := hperm.length_eq ▸ h
  refine ⟨?_, ?_, ?_⟩
  · show (Aggregator.select_best _ _).1.Perm _
    rw [Aggregator.select_best, if_pos hlen]
    exact hperm.map Prod.fst
  · show (Aggregator.select_best _ _).2.1 = []
    rw [Aggregator.select_best, if_pos hlen]
  · rw [Aggregator.select_best, if_pos hlen]
    exact (hperm.map Prod.snd).sum_eq

/-- Witness for C7 at a concrete two-question Section A input. -/
theorem c7_few_answers_keep_all_witness :
    (Aggregator.apply_answer_any_two_rule
        ⟨some [("Q1", .dict ⟨none, none, some 4, []⟩), ("Q2", .dict ⟨none, none, some 5, []⟩)]⟩
        "A").1.Perm
      ((Aggregator.question_scores
        ((some [("Q1", Aggregator.QVal.dict ⟨none, none, some 4, []⟩),
                ("Q2", Aggregator.QVal.dict ⟨none, none, some 5, []⟩)] :
            Option (List (String × Aggregator.QVal))).getD [])).map Prod.fst) ∧
    (Aggregator.apply_answer_any_two_rule
        ⟨some [("Q1", .dict ⟨none, none, some 4, []⟩), ("Q2", .dict ⟨none, none, some 5, []⟩)]⟩
        "A").2.1 = [] ∧
    (Aggregator.select_best
        (Aggregator.sortByMarksDesc (Aggregator.question_scores
          ((some [("Q1", Aggregator.QVal.dict ⟨none, none, some 4, []⟩),
                  ("Q2", Aggregator.QVal.dict ⟨none, none, some 5, []⟩)] :
              Option (List (String × Aggregator.QVal))).getD [])))
        (Aggregator.get_retain_best "A")).2.2 =
      ((Aggregator.question_scores
        ((some [("Q1", Aggregator.QVal.dict ⟨none, none, some 4, []⟩),
                ("Q2", Aggregator.QVal.dict ⟨none, none, some 5, []⟩)] :
            Option (List (String × Aggregator.QVal))).getD [])).map Prod.snd).sum :=
  c7_few_answers_keep_all
    ⟨some [("Q1", .dict ⟨none, none, some 4, []⟩), ("Q2", .dict ⟨none, none, some 5, []⟩)]⟩
    "A" (by decide)

/-- C8: the spec's end-to-end example. Section A with marks Q1 ↦ 5, Q2 ↦ 3,
Q3 ↦ 4 (retain-best-2, cap 10) retains Q1 and Q3, discards Q2, subtotal 9;
with Section B scoring 15 and Section C scoring 14 the grand total is 38 of
the fixed maximum 50, the percentage is 76.0, the grade is the ≥70 tier "A",
and the verdict is PASS under the ≥25 threshold. -/
theorem c8_end_to_end_example :
    (Aggregator.compute_final_result
      ⟨some ⟨some [("Q1", .dict ⟨none, none, some 5, []⟩),
                   ("Q2", .dict ⟨none, none, some 3, []⟩),
                   ("Q3", .dict ⟨none, none, some 4, []⟩)]⟩,
       some ⟨some [("Q4", .dict ⟨none, none, some 8, []⟩),
                   ("Q5", .dict ⟨none, none, some 7, []⟩)]⟩,
       some ⟨some [("Q6", .dict ⟨none, none, some 9, []⟩),
                   ("Q7", .dict ⟨none, none, some 5, []⟩)]⟩⟩
      "S1").sections_A.retained_questions = ["Q1", "Q3"] ∧
    (Aggregator.compute_final_result
      ⟨some ⟨some [("Q1", .dict ⟨none, none, some 5, []⟩),
                   ("Q2", .dict ⟨none, none, some 3, []⟩),
                   ("Q3", .dict ⟨none, none, some 4, []⟩)]⟩,
       some ⟨some [("Q4", .dict ⟨none, none, some 8, []⟩),
                   ("Q5", .dict ⟨none, none, some 7, []⟩)]⟩,
       some ⟨some [("Q6", .dict ⟨none, none, some 9, []⟩),
                   ("Q7", .dict ⟨none, none, some 5, []⟩)]⟩⟩
      "S1").sections_A.discarded_questions = ["Q2"] ∧
    (Aggregator.compute_final_result
      ⟨some ⟨some [("Q1", .dict ⟨none, none, some 5, []⟩),
                   ("Q2", .dict ⟨none, none, some 3, []⟩),
                   ("Q3", .dict ⟨none, none, some 4, []⟩)]⟩,
       some ⟨some [("Q4", .dict ⟨none, none, some 8, []⟩),
                   ("Q5", .dict ⟨none, none, some 7, []⟩)]⟩,
       some ⟨some [("Q6", .dict ⟨none, none, some 9, []⟩),
                   ("Q7", .dict ⟨none, none, some 5, []⟩)]⟩⟩
      "S1").sections_A.section_total = 9 ∧
    (Aggregator.compute_final_result
      ⟨some ⟨some [("Q1", .dict ⟨none, none, some 5, []⟩),
                   ("Q2", .dict ⟨none, none, some 3, []⟩),
                   ("Q3", .dict ⟨none, none, some 4, []⟩)]⟩,
       some ⟨some [("Q4", .dict ⟨none, none, some 8, []⟩),
                   ("Q5", .dict ⟨none, none, some 7, []⟩)]⟩,
       some ⟨some [("Q6", .dict ⟨none, none, some 9, []⟩),
                   ("Q7", .dict ⟨none, none, some 5, []⟩)]⟩⟩
      "S1").grand_total = 38 ∧
    (Aggregator.compute_final_result
      ⟨some ⟨some [("Q1", .dict ⟨none, none, some 5, []⟩),
                   ("Q2", .dict ⟨none, none, some 3, []⟩),
                   ("Q3", .dict ⟨none, none, some 4, []⟩)]⟩,
       some ⟨some [("Q4", .dict ⟨none, none, some 8, []⟩),
                   ("Q5", .dict ⟨none, none, some 7, []⟩)]⟩,
       some ⟨some [("Q6", .dict ⟨none, none, some 9, []⟩),
                   ("Q7", .dict ⟨none, none, some 5, []⟩)]⟩⟩
      "S1").max_possible = 50 ∧
    (Aggregator.compute_final_result
      ⟨some ⟨some [("Q1", .dict ⟨none, none, some 5, []⟩),
                   ("Q2", .dict ⟨none, none, some 3, []⟩),
                   ("Q3", .dict ⟨none, none, some 4, []⟩)]⟩,
       some ⟨some [("Q4", .dict ⟨none, none, some 8, []⟩),
                   ("Q5", .dict ⟨none, none, some 7, []⟩)]⟩,
       some ⟨some [("Q6", .dict ⟨none, none, some 9, []⟩),
                   ("Q7", .dict ⟨none, none, some 5, []⟩)]⟩⟩
      "S1").percentage = 76 ∧
    (Aggregator.compute_final_result
      ⟨some ⟨some [("Q1", .dict ⟨none, none, some 5, []⟩),
                   ("Q2", .dict ⟨none, none, some 3, []⟩),
                   ("Q3", .dict ⟨none, none, some 4, []⟩)]⟩,
       some ⟨some [("Q4", .dict ⟨none, none, some 8, []⟩),
                   ("Q5", .dict ⟨none, none, some 7, []⟩)]⟩,
       some ⟨some [("Q6", .dict ⟨none, none, some 9, []⟩),
                   ("Q7", .dict ⟨none, none, some 5, []⟩)]⟩⟩
      "S1").grade = "A" ∧
    (Aggregator.compute_final_result
      ⟨some ⟨some [("Q1", .dict ⟨none, none, some 5, []⟩),
                   ("Q2", .dict ⟨none, none, some 3, []⟩),
                   ("Q3", .dict ⟨none, none, some 4, []⟩)]⟩,
       some ⟨some [("Q4", .dict ⟨none, none, some 8, []⟩),
                   ("Q5", .dict ⟨none, none, some 7, []⟩)]⟩,
       some ⟨some [("Q6", .dict ⟨none, none, some 9, []⟩),
                   ("Q7", .dict ⟨none, none, some 5, []⟩)]⟩⟩
      "S1").result = "PASS" := by
  norm_num +decide [Aggregator.compute_final_result, Aggregator.section_out,
    Aggregator.apply_answer_any_two_rule, Aggregator.question_scores,
    Aggregator.calculate_question_total, Aggregator.sortByMarksDesc,
    Aggregator.insertByMarksDesc, Aggregator.select_best,
    Aggregator.get_retain_best, Aggregator.get_section_max_marks,
    Aggregator.SECTION_CONFIG, Aggregator.pymin, Aggregator.round1,
    Aggregator.roundHalfEven, Aggregator.calculate_grade,
    Aggregator.TOTAL_MAX, Aggregator.PASS_MARKS, Rat.floor]

/-- C1 counterexample: an exam-cache entry that is already complete (both
texts present and non-empty) IS overwritten by a second `save_ocr_results`
with different texts; the entry afterwards holds the new pair, not the
original one. -/
theorem c1_counterexample_second_put_not_noop :
    ExamCheckpoint.has_complete_ocr
      (.record ⟨some "QP-TEXT-1", some "AK-TEXT-1", some 0, some 0⟩) = true ∧
    ("QP-TEXT-2", "AK-TEXT-2") ≠ ("QP-TEXT-1", "AK-TEXT-1") ∧
    ExamCheckpoint.get_ocr_texts
      (ExamCheckpoint.save_ocr_results
        (.record ⟨some "QP-TEXT-1", some "AK-TEXT-1", some 0, some 0⟩)
        "QP-TEXT-2" "AK-TEXT-2" 1) ≠ some ("QP-TEXT-1", "AK-TEXT-1") ∧
    ExamCheckpoint.get_ocr_texts
      (ExamCheckpoint.save_ocr_results
        (.record ⟨some "QP-TEXT-1", some "AK-TEXT-1", some 0, some 0⟩)
        "QP-TEXT-2" "AK-TEXT-2" 1) = some ("QP-TEXT-2", "AK-TEXT-2") := by
  decide

/-- C1 amended: `save_ocr_results` is last-write-wins, not write-once: for
every prior state of the cache entry (complete or not) a put stores exactly
the supplied pair of texts. -/
theorem c1_amended_second_put_overwrites (st : ExamCheckpoint.DiskState)
    (question_text answer_key_text : String) (now : Nat) :
    ExamCheckpoint.load (ExamCheckpoint.save_ocr_results st question_text answer_key_text now) =
      some ⟨some question_text, some answer_key_text, some now, some now⟩ :=
  rfl

/-- C2 counterexample: a malformed on-disk record makes the per-job
`CheckpointService.load` raise (`json.JSONDecodeError` is not caught), rather
than behave as if no checkpoint existed. -/
theorem c2_counterexample_job_load_raises :
    Checkpoint.load .malformed = .error .jsonDecodeError ∧
    Checkpoint.load .malformed ≠ .ok none :=
  ⟨rfl, fun h => Except.noConfusion h⟩

/-- C2 amended: only the exam-level `ExamCheckpointService.load` treats a
malformed or unreadable record as "no checkpoint"; the per-job
`CheckpointService.load` returns `None` only for an absent file and
propagates the parse or I/O error otherwise. -/
theorem c2_amended_load_error_handling :
    ExamCheckpoint.load .malformed = none ∧
    ExamCheckpoint.load .unreadable = none ∧
    ExamCheckpoint.load .absent = none ∧
    Checkpoint.load .absent = .ok none ∧
    Checkpoint.load .malformed = .error .jsonDecodeError ∧
    Checkpoint.load .unreadable = .error .ioError :=
  ⟨rfl, rfl, rfl, rfl, rfl, rfl⟩

namespace JobStore

theorem find_job_cons (k : String) (v : JobRecord) (tl : Jobs) (id : String) :
    find_job ((k, v) :: tl) id = if k = id then some v else find_job tl id := rfl

theorem find_map_touch (g : JobRecord → JobRecord) (id : String) :
    ∀ l : Jobs, find_job (l.map (touch id g)) id = (find_job l id).map g
  | [] => rfl
  | (k, v) :: tl => by
    rw [List.map_cons, touch, find_job_cons, find_job_cons]
    by_cases h : k = id
    · rw [if_pos h, if_pos h, if_pos h]
      rfl
    · rw [if_neg h]
      show (if k = id then some v else find_job (List.map (touch id g) tl) id) =
        Option.map g (if k = id then some v else find_job tl id)
      rw [if_neg h, if_neg h]
      exact find_map_touch g id tl

theorem find_update_job (jobs : Jobs) (id : String)
    (r : JobRecord) (hr : find_job jobs id = some r)
    (status : String) (error : Option String)
    (result : Option LlmEvaluator.ValidatedResult) :
    find_job (update_job jobs id status error result) id =
      some (update_record r status error result) := by
  unfold update_job
  rw [if_pos (by rw [hr]; rfl)]
  rw [find_map_touch (fun b => update_record b status error result) id jobs, hr]
  rfl

end JobStore

/-- C10: `update_job` overwrites a job's `error` field only for a non-empty
supplied error; `error=None` (and the empty string) leave the recorded error
in place, so a job that failed with error `e` and is then resumed through
`processing` to `completed` ends with status `completed` while still carrying
the stale error `e`. -/
theorem c10_stale_error_survives_completion (jobs : JobStore.Jobs) (id : String)
    (r : JobStore.JobRecord) (status e : String)
    (res : Option LlmEvaluator.ValidatedResult) (fr : LlmEvaluator.ValidatedResult)
    (hr : JobStore.find_job jobs id = some r) (he : e ≠ "") :
    (JobStore.find_job (JobStore.update_job jobs id status none res) id).map
        JobStore.JobRecord.error = some r.error ∧
    (JobStore.update_record r status (some "") res).error = r.error ∧
    (JobStore.update_record r status (some e) res).error = some e ∧
    (JobStore.find_job
        (JobStore.update_job
          (JobStore.update_job
            (JobStore.update_job jobs id "failed" (some e) none)
            id "processing" none none)
          id "completed" none (some fr)) id).map
      (fun q => (q.status, q.error)) = some ("completed", some e) := by
  have hE : e.isEmpty = false :=
    Bool.eq_false_iff.mpr (fun hb => he ((String.isEmpty_iff e).mp hb))
  have htruthy : truthyStr (some e) = true := by
    simp [truthyStr, hE]
  refine ⟨?_, ?_, ?_, ?_⟩
  · rw [JobStore.find_update_job jobs id r hr]
    rfl
  · rfl
  · unfold JobStore.update_record
    simp [htruthy]
  · have h1 := JobStore.find_update_job jobs id r hr "failed" (some e) none
    have h2 := JobStore.find_update_job _ id _ h1 "processing" none none
    have h3 := JobStore.find_update_job _ id _ h2 "completed" none (some fr)
    rw [h3]
    unfold JobStore.update_record
    simp [htruthy, truthyStr, hE]

/-- Witness for C10 at a concrete one-job store. -/
theorem c10_stale_error_survives_completion_witness :
    (JobStore.find_job
        (JobStore.update_job [("job-1", JobStore.create_record)] "job-1" "processing" none none)
        "job-1").map
        JobStore.JobRecord.error = some JobStore.create_record.error ∧
    (JobStore.update_record JobStore.create_record "processing" (some "") none).error =
      JobStore.create_record.error ∧
    (JobStore.update_record JobStore.create_record "processing" (some "boom") none).error =
      some "boom" ∧
    (JobStore.find_job
        (JobStore.update_job
          (JobStore.update_job
            (JobStore.update_job [("job-1", JobStore.create_record)] "job-1" "failed" (some "boom") none)
            "job-1" "processing" none none)
          "job-1" "completed" none
          (some ⟨LlmEvaluator.default_section, LlmEvaluator.default_section,
                 LlmEvaluator.default_section, {}⟩))
        "job-1").map
      (fun q => (q.status, q.error)) = some ("completed", some "boom") :=
  c10_stale_error_survives_completion [("job-1", JobStore.create_record)] "job-1"
    JobStore.create_record "processing" "boom" none
    ⟨LlmEvaluator.default_section, LlmEvaluator.default_section,
     LlmEvaluator.default_section, {}⟩
    (by decide) (by decide)

namespace LlmEvaluator

theorem groq_handle_mem (payload : GroqPayload)
    (rest : Except String String × List GroqPayload) (o : HttpOutcome)
    (q : GroqPayload) (hq : q ∈ (groq_handle payload rest o).2) :
    q = payload ∨ q ∈ rest.2 := by
  cases o with
  | status code body =>
    simp only [groq_handle] at hq
    split at hq
    · simp at hq
      exact .inl hq
    · split at hq
      · simp only [List.mem_cons] at hq
        rcases hq with h1 | h2
        · exact .inl h1
        · exact .inr h2
      · simp at hq
        exact .inl hq
  | timeout =>
    simp only [groq_handle, List.mem_cons] at hq
    rcases hq with h1 | h2
    · exact .inl h1
    · exact .inr h2
  | connectError =>
    simp only [groq_handle, List.mem_cons] at hq
    rcases hq with h1 | h2
    · exact .inl h1
    · exact .inr h2

theorem groq_loop_200 (server : Nat → HttpOutcome) (payload : GroqPayload)
    (attempt fuel : Nat) (body : String) (h : server attempt = .status 200 body) :
    groq_retry_loop server payload attempt (fuel + 1) = (.ok body, [payload]) := by
  rw [groq_retry_loop, h]
  simp [groq_handle]

theorem groq_loop_429 (server : Nat → HttpOutcome) (payload : GroqPayload)
    (attempt fuel : Nat) (b : String) (h : server attempt = .status 429 b) :
    groq_retry_loop server payload attempt (fuel + 1) =
      ((groq_retry_loop server payload (attempt + 1) fuel).1,
       payload :: (groq_retry_loop server payload (attempt + 1) fuel).2) := by
  rw [groq_retry_loop, h]
  simp [groq_handle]

theorem groq_trace_const (server : Nat → HttpOutcome) (payload : GroqPayload) :
    ∀ (fuel attempt : Nat), ∀ q ∈ (groq_retry_loop server payload attempt fuel).2, q = payload := by
  intro fuel
  induction fuel with
  | zero =>
    intro attempt q hq
    simp [groq_retry_loop] at hq
  | succ n ih =>
    intro attempt q hq
    rw [groq_retry_loop] at hq
    rcases groq_handle_mem _ _ _ q hq with h1 | h2
    · exact h1
    · exact ih (attempt + 1) q h2

end LlmEvaluator

/-- C3: the Resilient Invoker builds the payload once before the retry loop,
so every attempt POSTs the identical payload (first conjunct, for every
server behaviour); and against a server answering 429 on attempts 1–3 and
200 with `body` on attempt 4, with at least 4 retries configured, it returns
`body` having POSTed the same payload exactly four times (second conjunct). -/
theorem c3_retry_same_payload_succeeds_fourth
    (messages : List LlmEvaluator.Message) (config : LlmEvaluator.Config)
    (max_tokens : Nat) (server : Nat → LlmEvaluator.HttpOutcome)
    (b0 b1 b2 body : String)
    (hkey : ((config.ocr_llm.getD (config.llm.getD {})).api_key.getD "").isEmpty = false)
    (hmr : 4 ≤ (config.ocr_llm.getD (config.llm.getD {})).max_retries.getD 15)
    (h0 : server 0 = .status 429 b0) (h1 : server 1 = .status 429 b1)
    (h2 : server 2 = .status 429 b2) (h3 : server 3 = .status 200 body) :
    (∀ (server' : Nat → LlmEvaluator.HttpOutcome),
      ∀ q ∈ (LlmEvaluator.call_groq_api messages config max_tokens server').2,
        q = ⟨(config.ocr_llm.getD (config.llm.getD {})).model.getD
               "meta-llama/llama-4-maverick-17b-128e-instruct",
             messages, 1/10, max_tokens⟩) ∧
    LlmEvaluator.call_groq_api messages config max_tokens server =
      (.ok body,
       List.replicate 4
         ⟨(config.ocr_llm.getD (config.llm.getD {})).model.getD
            "meta-llama/llama-4-maverick-17b-128e-instruct",
          messages, 1/10, max_tokens⟩) := by
  constructor
  · intro server' q hq
    simp only [LlmEvaluator.call_groq_api] at hq
    rw [hkey] at hq
    simp only [Bool.false_eq_true, if_false] at hq
    exact LlmEvaluator.groq_trace_const server' _ _ 0 q hq
  · simp only [LlmEvaluator.call_groq_api]
    rw [hkey]
    simp only [Bool.false_eq_true, if_false]
    obtain ⟨m, hm⟩ := Nat.exists_eq_add_of_le hmr
    rw [hm, Nat.add_comm 4 m]
    rw [show m + 4 = (m + 3) + 1 from rfl,
        LlmEvaluator.groq_loop_429 server _ 0 (m + 3) b0 h0]
    rw [show m + 3 = (m + 2) + 1 from rfl,
        LlmEvaluator.groq_loop_429 server _ 1 (m + 2) b1 h1]
    rw [show m + 2 = (m + 1) + 1 from rfl,
        LlmEvaluator.groq_loop_429 server _ 2 (m + 1) b2 h2]
    rw [LlmEvaluator.groq_loop_200 server _ 3 m body h3]
    rfl

/-- Witness for C3: a concrete config and a server that rate-limits the
first three attempts. -/
theorem c3_retry_same_payload_succeeds_fourth_witness :
    (∀ (server' : Nat → LlmEvaluator.HttpOutcome),
      ∀ q ∈ (LlmEvaluator.call_groq_api [⟨"user", "hi"⟩]
               ⟨some { api_key := some "key-1", max_retries := some 4 }, none⟩
               3000 server').2,
        q = ⟨"meta-llama/llama-4-maverick-17b-128e-instruct",
             [⟨"user", "hi"⟩], 1/10, 3000⟩) ∧
    LlmEvaluator.call_groq_api [⟨"user", "hi"⟩]
        ⟨some { api_key := some "key-1", max_retries := some 4 }, none⟩
        3000
        (fun n => if n = 3 then .status 200 "EXTRACTED" else .status 429 "limit") =
      (.ok "EXTRACTED",
       List.replicate 4
         ⟨"meta-llama/llama-4-maverick-17b-128e-instruct",
          [⟨"user", "hi"⟩], 1/10, 3000⟩) :=
  c3_retry_same_payload_succeeds_fourth [⟨"user", "hi"⟩]
    ⟨some { api_key := some "key-1", max_retries := some 4 }, none⟩
    3000 (fun n => if n = 3 then .status 200 "EXTRACTED" else .status 429 "limit")
    "limit" "limit" "limit" "EXTRACTED"
    (by decide) (by decide) (by decide) (by decide) (by decide) (by decide)

theorem evaluate_exam_extraction_calls (job_id : String)
    (st : LlmEvaluator.PipelineState) (ora : LlmEvaluator.Oracles) (now : Nat) :
    (LlmEvaluator.evaluate_exam job_id st ora now).extraction_calls =
      (LlmEvaluator.stage1 job_id st ora.extract now).2.2 := by
  simp only [LlmEvaluator.evaluate_exam]
  split
  · rfl
  · split
    · rfl
    · split <;> rfl

/-- C4 counterexample: a per-job checkpoint at stage `OCR_COMPLETE` whose
`ocr_texts` records all three documents, with the student text recorded as
the empty string, makes `evaluate_exam` re-invoke the extraction service
(for all three documents here, the exam cache being empty), not zero times. -/
theorem c4_counterexample_empty_student_text_reextracts :
    (LlmEvaluator.evaluate_exam "job-1"
      ⟨.record { stage := "OCR_COMPLETE",
                 completed_sections := [],
                 ocr_texts := some ⟨some "QP-TEXT", some "AK-TEXT", some ""⟩,
                 final_result := none },
       .absent, [("job-1", JobStore.create_record)], none⟩
      ⟨fun _ => "RE-EXTRACTED", .error "stop"⟩ 0).extraction_calls =
      [.question_paper, .answer_key, .student_sheet] := by
  decide

/-- C4 amended: if the per-job checkpoint has an `ocr_texts` dict whose
`student_answers` entry is a non-empty string (the condition the code
actually gates on, rather than the stage marker), `evaluate_exam` performs
zero calls to the extraction service. -/
theorem c4_amended_no_reextraction (job_id : String)
    (st : LlmEvaluator.PipelineState) (ora : LlmEvaluator.Oracles) (now : Nat)
    (cp : Checkpoint.CheckpointData) (t : Checkpoint.OcrTexts)
    (hcp : st.job_checkpoint = .record cp)
    (ht : cp.ocr_texts = some t)
    (hst : truthyStr t.student_answers = true) :
    (LlmEvaluator.evaluate_exam job_id st ora now).extraction_calls = [] := by
  rw [evaluate_exam_extraction_calls]
  obtain ⟨qp?, ak?, sa?⟩ := t
  cases sa? with
  | none => simp [truthyStr] at hst
  | some sa =>
    have hcond : (LlmEvaluator.ocrTruthy ⟨qp?, ak?, some sa⟩ &&
        truthyStr (some sa)) = true := by
      simp only [LlmEvaluator.ocrTruthy, Option.isSome_some, Bool.or_true]
      simpa using hst
    have hget : Checkpoint.get_ocr_texts (Checkpoint.DiskState.record cp) =
        .ok cp.ocr_texts := rfl
    simp only [LlmEvaluator.stage1, hcp, hget, ht, hcond, if_true]
    cases qp? <;> cases ak? <;> rfl

/-- Witness for C4 (amended) at a concrete resumable checkpoint. -/
theorem c4_amended_no_reextraction_witness :
    (LlmEvaluator.evaluate_exam "job-1"
      ⟨.record { stage := "OCR_COMPLETE",
                 completed_sections := [],
                 ocr_texts := some ⟨some "QP-TEXT", some "AK-TEXT", some "ST-TEXT"⟩,
                 final_result := none },
       .absent, [("job-1", JobStore.create_record)], none⟩
      ⟨fun _ => "RE-EXTRACTED", .error "stop"⟩ 0).extraction_calls = [] :=
  c4_amended_no_reextraction "job-1"
    ⟨.record { stage := "OCR_COMPLETE",
               completed_sections := [],
               ocr_texts := some ⟨some "QP-TEXT", some "AK-TEXT", some "ST-TEXT"⟩,
               final_result := none },
     .absent, [("job-1", JobStore.create_record)], none⟩
    ⟨fun _ => "RE-EXTRACTED", .error "stop"⟩ 0
    { stage := "OCR_COMPLETE",
      completed_sections := [],
      ocr_texts := some ⟨some "QP-TEXT", some "AK-TEXT", some "ST-TEXT"⟩,
      final_result := none }
    ⟨some "QP-TEXT", some "AK-TEXT", some "ST-TEXT"⟩
    rfl rfl (by decide)

theorem save_final_result_ok (stj : Checkpoint.DiskState)
    (final : LlmEvaluator.ValidatedResult) (cp' : Checkpoint.DiskState)
    (h : Checkpoint.save_final_result stj final = .ok cp') :
    ∃ d : Checkpoint.CheckpointData,
      cp' = .record { d with stage := "AGGREGATION_COMPLETE", final_result := some final } := by
  cases stj with
  | absent =>
    refine ⟨Checkpoint.init_checkpoint, ?_⟩
    have : Checkpoint.save_final_result Checkpoint.DiskState.absent final =
        .ok (.record { Checkpoint.init_checkpoint with
          stage := "AGGREGATION_COMPLETE", final_result := some final }) := rfl
    rw [this] at h
    exact (Except.ok.injEq _ _).mp h.symm ▸ rfl
  | malformed => exact absurd h (by intro hh; exact Except.noConfusion hh)
  | unreadable => exact absurd h (by intro hh; exact Except.noConfusion hh)
  | record d =>
    refine ⟨d, ?_⟩
    have : Checkpoint.save_final_result (Checkpoint.DiskState.record d) final =
        .ok (.record { d with stage := "AGGREGATION_COMPLETE", final_result := some final }) := rfl
    rw [this] at h
    exact (Except.ok.injEq _ _).mp h.symm ▸ rfl

/-- C5 amended: after a successful reasoning call, stage 3 of `evaluate_exam`
persists `validate_and_fix_result` of the evaluation result (NOT the
Aggregation Engine's `compute_final_result`): the returned value, the
checkpointed final result, the saved output file and the job-store result
all equal `validate_and_fix_result evaluation_result`. -/
theorem c5_amended_stage3_persists_validator (job_id : String)
    (st : LlmEvaluator.PipelineState) (ora : LlmEvaluator.Oracles) (now : Nat)
    (er : LlmEvaluator.EvalResult) (texts : String × String × String)
    (cp' : Checkpoint.DiskState)
    (h1 : (LlmEvaluator.stage1 job_id st ora.extract now).1 = .ok texts)
    (h2 : ora.holistic = .ok er)
    (h3 : Checkpoint.save_final_result
            (LlmEvaluator.stage1 job_id st ora.extract now).2.1.job_checkpoint
            (LlmEvaluator.validate_and_fix_result er) = .ok cp') :
    LlmEvaluator.evaluate_exam job_id st ora now =
      ⟨.ok (LlmEvaluator.validate_and_fix_result er),
       ⟨cp',
        (LlmEvaluator.stage1 job_id st ora.extract now).2.1.exam_checkpoint,
        JobStore.update_job (LlmEvaluator.stage1 job_id st ora.extract now).2.1.jobs
          job_id "completed" none (some (LlmEvaluator.validate_and_fix_result er)),
        some (LlmEvaluator.validate_and_fix_result er)⟩,
       (LlmEvaluator.stage1 job_id st ora.extract now).2.2⟩ ∧
    (∃ d : Checkpoint.CheckpointData,
      cp' = .record { d with stage := "AGGREGATION_COMPLETE",
                             final_result := some (LlmEvaluator.validate_and_fix_result er) }) := by
  constructor
  · simp only [LlmEvaluator.evaluate_exam, LlmEvaluator.stage3, h1, h2, h3]
  · exact save_final_result_ok _ _ _ h3

/-- C5 counterexample: on a concrete successful run the persisted final
artifact is `validate_and_fix_result` of the evaluation (Section A's claimed
total 12 merely clamped to the cap 10), while the Aggregation Engine on the
same per-section scores computes a grand total of 9 (retain-best-2 of
5, 4, 3): the artifact does NOT equal `compute_final_result`'s output. -/
theorem c5_counterexample_artifact_not_aggregator_output :
    (LlmEvaluator.evaluate_exam "job-1" Sample.fresh_state Sample.ora 0).result =
      .ok (LlmEvaluator.validate_and_fix_result Sample.inflated_eval) ∧
    (LlmEvaluator.validate_and_fix_result Sample.inflated_eval).final_summary.total_marks = 10 ∧
    (Aggregator.compute_final_result Sample.inflated_sections "UNKNOWN").grand_total = 9 ∧
    (10 : ℚ) ≠ 9 := by
  refine ⟨rfl, ?_, ?_, by norm_num⟩
  · norm_num [LlmEvaluator.validate_and_fix_result, LlmEvaluator.fix_section,
      LlmEvaluator.default_section, Aggregator.pymin, Sample.inflated_eval]
  · norm_num +decide [Sample.inflated_sections, Aggregator.compute_final_result,
      Aggregator.section_out, Aggregator.apply_answer_any_two_rule,
      Aggregator.question_scores, Aggregator.calculate_question_total,
      Aggregator.sortByMarksDesc, Aggregator.insertByMarksDesc,
      Aggregator.select_best, Aggregator.get_retain_best,
      Aggregator.get_section_max_marks, Aggregator.SECTION_CONFIG,
      Aggregator.pymin, Aggregator.round1, Aggregator.roundHalfEven,
      Aggregator.calculate_grade, Aggregator.TOTAL_MAX, Aggregator.PASS_MARKS,
      Rat.floor]

/-- Witness for C5 (amended) on the concrete fixtures. -/
theorem c5_amended_stage3_persists_validator_witness :
    LlmEvaluator.evaluate_exam "job-1" Sample.fresh_state Sample.ora 0 =
      ⟨.ok (LlmEvaluator.validate_and_fix_result Sample.inflated_eval),
       ⟨Sample.cp_after,
        (LlmEvaluator.stage1 "job-1" Sample.fresh_state Sample.ora.extract 0).2.1.exam_checkpoint,
        JobStore.update_job
          (LlmEvaluator.stage1 "job-1" Sample.fresh_state Sample.ora.extract 0).2.1.jobs
          "job-1" "completed" none
          (some (LlmEvaluator.validate_and_fix_result Sample.inflated_eval)),
        some (LlmEvaluator.validate_and_fix_result Sample.inflated_eval)⟩,
       (LlmEvaluator.stage1 "job-1" Sample.fresh_state Sample.ora.extract 0).2.2⟩ ∧
    (∃ d : Checkpoint.CheckpointData,
      Sample.cp_after =
        .record { d with
                  stage := "AGGREGATION_COMPLETE",
                  final_result :=
                    some (LlmEvaluator.validate_and_fix_result Sample.inflated_eval) }) :=
  c5_amended_stage3_persists_validator "job-1" Sample.fresh_state Sample.ora 0
    Sample.inflated_eval ("TEXT", "TEXT", "TEXT") Sample.cp_after rfl rfl rfl

namespace ExtractJson

theorem dropWhile_ends (p : Char → Bool) (c : Char) (hc : p c = false) :
    ∀ l : List Char, ∃ w, (l ++ [c]).dropWhile p = w ++ [c]
  | [] => ⟨[], by simp [List.dropWhile, hc]⟩
  | x :: xs => by
    by_cases hx : p x = true
    · obtain ⟨w, hw⟩ := dropWhile_ends p c hc xs
      exact ⟨w, by simp [List.dropWhile_cons, hx, hw]⟩
    · exact ⟨x :: xs, by simp [List.dropWhile_cons, hx]⟩

theorem pyStrip_head (c : Char) (l : List Char) (hc : isPySpace c = false) :
    (pyStrip (c :: l)).head? = some c := by
  unfold pyStrip
  rw [List.dropWhile_cons, if_neg (by simp [hc])]
  rw [List.reverse_cons]
  obtain ⟨w, hw⟩ := dropWhile_ends isPySpace c hc l.reverse
  rw [hw, List.reverse_append]
  simp

theorem pyStrip_block (s : List Char)
    (h4 : s.head? = some '\x7b') (h5 : s.getLast? = some '\x7d') :
    pyStrip ('\n' :: (s ++ ['\n'])) = s := by
  obtain ⟨hd, tl, rfl⟩ : ∃ hd tl, s = hd :: tl := by
    cases s with
    | nil => simp at h4
    | cons a b => exact ⟨a, b, rfl⟩
  have hhd : hd = '\x7b' := by simpa using h4
  subst hhd
  unfold pyStrip
  rw [List.dropWhile_cons, if_pos (by simp [isPySpace, isJsonSpace])]
  rw [List.cons_append, List.dropWhile_cons,
      if_neg (by simp [isPySpace, isJsonSpace])]
  rw [← List.cons_append, List.reverse_append]
  simp only [List.reverse_singleton, List.singleton_append]
  rw [List.dropWhile_cons, if_pos (by simp [isPySpace, isJsonSpace])]
  have hr : (('\x7b' :: tl).reverse).head? = some '\x7d' := by
    rw [List.head?_reverse]
    exact h5
  obtain ⟨c, w, hw⟩ : ∃ c w, ('\x7b' :: tl).reverse = c :: w := by
    cases hrr : ('\x7b' :: tl).reverse with
    | nil => rw [hrr] at hr; simp at hr
    | cons a b => exact ⟨a, b, rfl⟩
  have hc : c = '\x7d' := by rw [hw] at hr; simpa using hr
  subst hc
  rw [hw, List.dropWhile_cons, if_neg (by simp [isPySpace, isJsonSpace])]
  rw [← hw, List.reverse_reverse]

end ExtractJson

namespace ExtractJson

theorem isPrefixList_append_self : ∀ (p r : List Char), isPrefixList p (p ++ r) = true
  | [], _ => rfl
  | c :: cs, r => by
    simp only [List.cons_append, isPrefixList]
    simp [isPrefixList_append_self cs r]

theorem findSub_self (pat l : List Char) (h : isPrefixList pat l = true) (hne : l ≠ []) :
    findSub pat l = some 0 := by
  cases l with
  | nil => exact absurd rfl hne
  | cons c cs =>
    rw [findSub, if_pos h]

theorem findSub_append_shift (p : Char) (ps : List Char) :
    ∀ (l1 l2 : List Char), (∀ x ∈ l1, x ≠ p) →
    findSub (p :: ps) (l1 ++ l2) = (findSub (p :: ps) l2).map (· + l1.length)
  | [], l2, _ => by
    cases h : findSub (p :: ps) l2 <;> simp [h]
  | x :: xs, l2, h => by
    have hx : x ≠ p := h x (List.mem_cons_self x xs)
    rw [List.cons_append, findSub,
        if_neg (by simp [isPrefixList]; intro he; exact absurd he.symm hx)]
    rw [findSub_append_shift p ps xs l2 (fun y hy => h y (List.mem_cons_of_mem x hy))]
    cases findSub (p :: ps) l2 <;> simp [Nat.add_assoc]

theorem findSub_none (p : Char) (ps : List Char) :
    ∀ (l : List Char), (∀ x ∈ l, x ≠ p) → findSub (p :: ps) l = none
  | [], _ => by simp [findSub]
  | x :: xs, h => by
    have hx : x ≠ p := h x (List.mem_cons_self x xs)
    rw [findSub,
        if_neg (by simp [isPrefixList]; intro he; exact absurd he.symm hx)]
    rw [findSub_none p ps xs (fun y hy => h y (List.mem_cons_of_mem x hy))]
    rfl

theorem charPositions_append_shift (c : Char) :
    ∀ (l1 l2 : List Char), (∀ x ∈ l1, x ≠ c) →
    charPositions c (l1 ++ l2) = (charPositions c l2).map (· + l1.length)
  | [], l2, _ => by simp
  | x :: xs, l2, h => by
    have hx : x ≠ c := h x (List.mem_cons_self x xs)
    rw [List.cons_append, charPositions, if_neg hx]
    rw [charPositions_append_shift c xs l2 (fun y hy => h y (List.mem_cons_of_mem x hy))]
    rw [List.map_map]
    congr 1

theorem charPositions_cons_self (c : Char) (l : List Char) :
    charPositions c (c :: l) = 0 :: (charPositions c l).map (· + 1) := by
  rw [charPositions, if_pos rfl]

theorem scanEnd_append :
    ∀ (s : List Char) (d : Int) (t : List Char) (k : Nat),
    scanEnd d s = some k → scanEnd d (s ++ t) = some k := by
  intro s
  induction s with
  | nil => intro d t k h; simp [scanEnd] at h
  | cons c cs ih =>
    intro d t k h
    rw [List.cons_append]
    simp only [scanEnd] at h ⊢
    by_cases hb : (decide (c = '\x7d') && decide (scanStep d c = 0)) = true
    · rw [if_pos hb] at h
      rw [if_pos hb]
      exact h
    · rw [if_neg hb] at h
      rw [if_neg hb]
      cases hsc : scanEnd (scanStep d c) cs with
      | none => rw [hsc] at h; simp at h
      | some k' =>
        rw [hsc] at h
        simp only [Option.map_some'] at h
        rw [ih _ t k' hsc]
        simpa using h

end ExtractJson

namespace ExtractJson

theorem drop_prefix_len (l1 l2 : List Char) (n : Nat) (hn : l1.length = n) :
    (l1 ++ l2).drop n = l2 := by
  rw [← hn]
  exact List.drop_left l1 l2

theorem take_prefix_len (l1 l2 : List Char) (n : Nat) (hn : l1.length = n) :
    (l1 ++ l2).take n = l1 := by
  rw [← hn]
  exact List.take_left l1 l2

theorem findAllBlocks_fenceJson_none (l : List Char) (h : ∀ x ∈ l, x ≠ '\x60') :
    ∀ fuel, findAllBlocks fenceJson fuel l = []
  | 0 => rfl
  | fuel + 1 => by
    rw [findAllBlocks, show fenceJson = '\x60' :: "``json".data from rfl,
        findSub_none '\x60' _ l h]

theorem findAllBlocks_fencePlain_none (l : List Char) (h : ∀ x ∈ l, x ≠ '\x60') :
    ∀ fuel, findAllBlocks fencePlain fuel l = []
  | 0 => rfl
  | fuel + 1 => by
    rw [findAllBlocks, show fencePlain = '\x60' :: "``".data from rfl,
        findSub_none '\x60' _ l h]

end ExtractJson

namespace ExtractJson

theorem block_chars_ok (s : List Char) (hs : ∀ c ∈ s, c ≠ '\x60') :
    ∀ x ∈ '\n' :: (s ++ ['\n']), x ≠ '\x60' := by
  intro x hx
  rcases List.mem_cons.mp hx with rfl | hx'
  · decide
  · rcases List.mem_append.mp hx' with hxs | hxn
    · exact hs x hxs
    · rcases List.mem_singleton.mp hxn with rfl
      decide

theorem findAllBlocks_json_single (pre s post : List Char) (fuel : Nat)
    (hpre : ∀ c ∈ pre, c ≠ '\x60') (hs : ∀ c ∈ s, c ≠ '\x60')
    (hpost : ∀ c ∈ post, c ≠ '\x60') :
    findAllBlocks fenceJson (fuel + 1)
      (pre ++ (fenceJson ++ ('\n' :: (s ++ ('\n' :: (fencePlain ++ post)))))) =
      ['\n' :: (s ++ ['\n'])] := by
  have hafter : ('\n' : Char) :: (s ++ ('\n' :: (fencePlain ++ post))) =
      ('\n' :: (s ++ ['\n'])) ++ (fencePlain ++ post) := by
    simp
  have hfind1 : findSub fenceJson
      (pre ++ (fenceJson ++ ('\n' :: (s ++ ('\n' :: (fencePlain ++ post)))))) =
      some pre.length := by
    rw [show fenceJson = '\x60' :: "``json".data from rfl]
    rw [findSub_append_shift '\x60' "``json".data pre _ hpre]
    rw [findSub_self _ _ (isPrefixList_append_self _ _) (by simp)]
    simp
  have hdrop1 : (pre ++ (fenceJson ++ ('\n' :: (s ++ ('\n' :: (fencePlain ++ post)))))).drop
      (pre.length + fenceJson.length) =
      '\n' :: (s ++ ('\n' :: (fencePlain ++ post))) := by
    rw [← List.append_assoc]
    exact drop_prefix_len _ _ _ (by rw [List.length_append])
  have hfind2 : findSub fencePlain ('\n' :: (s ++ ('\n' :: (fencePlain ++ post)))) =
      some (('\n' :: (s ++ ['\n'])).length) := by
    rw [hafter]
    rw [show fencePlain = '\x60' :: "``".data from rfl]
    rw [findSub_append_shift '\x60' "``".data _ _ (block_chars_ok s hs)]
    rw [findSub_self _ _ (isPrefixList_append_self _ _) (by simp)]
    simp
  have htake : ('\n' :: (s ++ ('\n' :: (fencePlain ++ post)))).take
      (('\n' :: (s ++ ['\n'])).length) = '\n' :: (s ++ ['\n']) := by
    rw [hafter]
    exact take_prefix_len _ _ _ rfl
  have hdrop2 : ('\n' :: (s ++ ('\n' :: (fencePlain ++ post)))).drop
      (('\n' :: (s ++ ['\n'])).length + 3) = post := by
    rw [hafter, ← List.append_assoc]
    exact drop_prefix_len _ _ _ (by rw [List.length_append]; rfl)
  simp only [findAllBlocks, hfind1, hdrop1, hfind2, htake, hdrop2]
  rw [findAllBlocks_fenceJson_none post hpost fuel]

theorem findAllBlocks_plain_two (pre s post : List Char) (fuel : Nat)
    (hpre : ∀ c ∈ pre, c ≠ '\x60') (hs : ∀ c ∈ s, c ≠ '\x60')
    (hpost : ∀ c ∈ post, c ≠ '\x60') :
    findAllBlocks fencePlain (fuel + 1)
      (pre ++ (fenceJson ++ ('\n' :: (s ++ ('\n' :: (fencePlain ++ post)))))) =
      ["json".data ++ ('\n' :: (s ++ ['\n']))] := by
  have hsplit : fenceJson ++ ('\n' :: (s ++ ('\n' :: (fencePlain ++ post)))) =
      fencePlain ++ ("json".data ++ ('\n' :: (s ++ ('\n' :: (fencePlain ++ post))))) := rfl
  have hafter : ("json".data ++ ('\n' :: (s ++ ('\n' :: (fencePlain ++ post))))) =
      ("json".data ++ ('\n' :: (s ++ ['\n']))) ++ (fencePlain ++ post) := by
    simp
  have hchars : ∀ x ∈ "json".data ++ ('\n' :: (s ++ ['\n'])), x ≠ '\x60' := by
    intro x hx
    rcases List.mem_append.mp hx with hxj | hxb
    · fin_cases hxj <;> decide
    · exact block_chars_ok s hs x hxb
  have hfind1 : findSub fencePlain
      (pre ++ (fenceJson ++ ('\n' :: (s ++ ('\n' :: (fencePlain ++ post)))))) =
      some pre.length := by
    rw [hsplit]
    rw [show fencePlain = '\x60' :: "``".data from rfl]
    rw [findSub_append_shift '\x60' "``".data pre _ hpre]
    rw [findSub_self _ _ (isPrefixList_append_self _ _) (by simp)]
    simp
  have hdrop1 : (pre ++ (fenceJson ++ ('\n' :: (s ++ ('\n' :: (fencePlain ++ post)))))).drop
      (pre.length + fencePlain.length) =
      "json".data ++ ('\n' :: (s ++ ('\n' :: (fencePlain ++ post)))) := by
    rw [hsplit, ← List.append_assoc]
    exact drop_prefix_len _ _ _ (by rw [List.length_append])
  have hfind2 : findSub fencePlain
      ("json".data ++ ('\n' :: (s ++ ('\n' :: (fencePlain ++ post))))) =
      some (("json".data ++ ('\n' :: (s ++ ['\n']))).length) := by
    rw [hafter]
    rw [show fencePlain = '\x60' :: "``".data from rfl]
    rw [findSub_append_shift '\x60' "``".data _ _ hchars]
    rw [findSub_self _ _ (isPrefixList_append_self _ _) (by simp)]
    simp
  have htake : ("json".data ++ ('\n' :: (s ++ ('\n' :: (fencePlain ++ post))))).take
      (("json".data ++ ('\n' :: (s ++ ['\n']))).length) =
      "json".data ++ ('\n' :: (s ++ ['\n'])) := by
    rw [hafter]
    exact take_prefix_len _ _ _ rfl
  have hdrop2 : ("json".data ++ ('\n' :: (s ++ ('\n' :: (fencePlain ++ post))))).drop
      (("json".data ++ ('\n' :: (s ++ ['\n']))).length + 3) = post := by
    rw [hafter, ← List.append_assoc]
    exact drop_prefix_len _ _ _ (by rw [List.length_append]; rfl)
  simp only [findAllBlocks, hfind1, hdrop1, hfind2, htake, hdrop2]
  rw [findAllBlocks_fencePlain_none post hpost fuel]

end ExtractJson

namespace ExtractJson

theorem tryBlocks_comma_block (s : List Char)
    (h4 : s.head? = some '\x7b') (h5 : s.getLast? = some '\x7d')
    (h7 : jsonParse s = none) :
    tryBlocks ['\n' :: (s ++ ['\n'])] = none := by
  simp only [tryBlocks]
  rw [pyStrip_block s h4 h5]
  rw [if_pos h4, h7]

theorem tryBlocks_json_head_block (s : List Char) :
    tryBlocks ["json".data ++ ('\n' :: (s ++ ['\n']))] = none := by
  simp only [tryBlocks]
  have hh : (pyStrip ("json".data ++ ('\n' :: (s ++ ['\n'])))).head? = some 'j' := by
    rw [show ("json".data ++ ('\n' :: (s ++ ['\n']))) =
        'j' :: ("son".data ++ ('\n' :: (s ++ ['\n']))) from rfl]
    exact pyStrip_head 'j' _ (by decide)
  rw [if_neg (by intro hcon; rw [hh] at hcon; exact absurd hcon (by decide))]

theorem braceScan_finds (pre s post : List Char) (v : JVal)
    (hpre : ∀ c ∈ pre, c ≠ '\x7b')
    (h4 : s.head? = some '\x7b') (h5 : s.getLast? = some '\x7d')
    (h6 : scanEnd 0 s = some (s.length - 1))
    (h7 : jsonParse s = none)
    (h8 : jsonParse (strip_trailing_commas s) = some v) :
    braceScan (pre ++ (fenceJson ++ ('\n' :: (s ++ ('\n' :: (fencePlain ++ post))))))
      (charPositions '\x7b'
        (pre ++ (fenceJson ++ ('\n' :: (s ++ ('\n' :: (fencePlain ++ post))))))) = some v := by
  obtain ⟨hd, tl, rfl⟩ : ∃ hd tl, s = hd :: tl := by
    cases s with
    | nil => simp at h4
    | cons a b => exact ⟨a, b, rfl⟩
  have hhd : hd = '\x7b' := by simpa using h4
  subst hhd
  have hs2 : 2 ≤ ('\x7b' :: tl).length := by
    cases tl with
    | nil => simp at h5
    | cons b bs => simp
  have hresh : pre ++ (fenceJson ++ ('\n' :: (('\x7b' :: tl) ++ ('\n' :: (fencePlain ++ post))))) =
      (pre ++ (fenceJson ++ ['\n'])) ++ (('\x7b' :: tl) ++ ('\n' :: (fencePlain ++ post))) := by
    simp
  have hnb : ∀ x ∈ pre ++ (fenceJson ++ ['\n']), x ≠ '\x7b' := by
    intro x hx
    rcases List.mem_append.mp hx with hxp | hxf
    · exact hpre x hxp
    · rcases List.mem_append.mp hxf with hxj | hxn
      · fin_cases hxj <;> decide
      · rcases List.mem_singleton.mp hxn with rfl
        decide
  have hcp : charPositions '\x7b'
      (pre ++ (fenceJson ++ ('\n' :: (('\x7b' :: tl) ++ ('\n' :: (fencePlain ++ post)))))) =
      (pre ++ (fenceJson ++ ['\n'])).length ::
        ((charPositions '\x7b' (tl ++ ('\n' :: (fencePlain ++ post)))).map (· + 1)).map
          (· + (pre ++ (fenceJson ++ ['\n'])).length) := by
    rw [hresh, charPositions_append_shift '\x7b' _ _ hnb, List.cons_append,
        charPositions_cons_self]
    simp
  rw [hcp]
  have hdrop : (pre ++ (fenceJson ++ ('\n' :: (('\x7b' :: tl) ++ ('\n' :: (fencePlain ++ post)))))).drop
      (pre ++ (fenceJson ++ ['\n'])).length = ('\x7b' :: tl) ++ ('\n' :: (fencePlain ++ post)) := by
    rw [hresh]
    exact drop_prefix_len _ _ _ rfl
  have hse := scanEnd_append ('\x7b' :: tl) 0 ('\n' :: (fencePlain ++ post)) _ h6
  have hlt : 0 < ('\x7b' :: tl).length - 1 := by
    simp only [List.length_cons] at hs2 ⊢
    omega
  have htake : (('\x7b' :: tl) ++ ('\n' :: (fencePlain ++ post))).take
      (('\x7b' :: tl).length - 1 + 1) = '\x7b' :: tl := by
    rw [show ('\x7b' :: tl).length - 1 + 1 = ('\x7b' :: tl).length from by
      simp only [List.length_cons]; omega]
    exact take_prefix_len _ _ _ rfl
  simp only [braceScan, hdrop, hse, hlt, if_true, htake, try_parse_with_commas, h7, h8]

end ExtractJson

/-- C9: a reply made of prose, then a single fenced ```json block whose
contents are a JSON object marred only by a trailing comma, then more prose,
is recovered by `extract_json_from_response` without raising: the direct
parse fails (clause `h1`), both fenced-block strategies fail to parse the
block strictly, and the balanced-brace strategy's trailing-comma-stripping
retry (clauses `h7`, `h8`) returns the intended payload. The prose clauses
say the prose contains no code fence and the leading prose no brace, and
`h6` says the block is brace-balanced, its matching closer being its last
character. -/
theorem c9_fenced_trailing_comma_recovered (pre s post : List Char)
    (v : ExtractJson.JVal)
    (h1 : ExtractJson.jsonParse
      (pre ++ (ExtractJson.fenceJson ++
        ('\n' :: (s ++ ('\n' :: (ExtractJson.fencePlain ++ post)))))) = none)
    (h2 : ∀ c ∈ pre, c ≠ '\x60' ∧ c ≠ '\x7b')
    (h3 : ∀ c ∈ s, c ≠ '\x60')
    (h4 : s.head? = some '\x7b')
    (h5 : s.getLast? = some '\x7d')
    (h6 : ExtractJson.scanEnd 0 s = some (s.length - 1))
    (h7 : ExtractJson.jsonParse s = none)
    (h8 : ExtractJson.jsonParse (ExtractJson.strip_trailing_commas s) = some v)
    (h9 : ∀ c ∈ post, c ≠ '\x60') :
    ExtractJson.extract_json_from_response
      (pre ++ (ExtractJson.fenceJson ++
        ('\n' :: (s ++ ('\n' :: (ExtractJson.fencePlain ++ post)))))) = .ok v := by
  have hpre60 : ∀ c ∈ pre, c ≠ '\x60' := fun c hc => (h2 c hc).1
  have hpre7b : ∀ c ∈ pre, c ≠ '\x7b' := fun c hc => (h2 c hc).2
  have hb1 := ExtractJson.findAllBlocks_json_single pre s post
    (pre ++ (ExtractJson.fenceJson ++
      ('\n' :: (s ++ ('\n' :: (ExtractJson.fencePlain ++ post)))))).length
    hpre60 h3 h9
  have hb2 := ExtractJson.findAllBlocks_plain_two pre s post
    (pre ++ (ExtractJson.fenceJson ++
      ('\n' :: (s ++ ('\n' :: (ExtractJson.fencePlain ++ post)))))).length
    hpre60 h3 h9
  have ht1 := ExtractJson.tryBlocks_comma_block s h4 h5 h7
  have ht2 := ExtractJson.tryBlocks_json_head_block s
  have hsc := ExtractJson.braceScan_finds pre s post v hpre7b h4 h5 h6 h7 h8
  simp only [ExtractJson.extract_json_from_response, h1, hb1, ht1, hb2, ht2, hsc]

/-- Witness for C9 on a concrete reply: prose, a ```json fence containing an
object with a trailing comma, prose after. -/
theorem c9_fenced_trailing_comma_recovered_witness :
    ExtractJson.extract_json_from_response
      ("Here is the result:\n".data ++ (ExtractJson.fenceJson ++
        ('\n' :: ("\x7b\"score\": 5,\x7d".data ++
          ('\n' :: (ExtractJson.fencePlain ++ "\nRegards.".data)))))) =
      .ok (.obj [("score".data, .num 5)]) :=
  c9_fenced_trailing_comma_recovered
    "Here is the result:\n".data "\x7b\"score\": 5,\x7d".data "\nRegards.".data
    (.obj [("score".data, .num 5)])
    rfl (by decide) (by decide) rfl rfl rfl rfl rfl (by decide)
